import Mathlib

/-!
Shallow embedding of the `ddtestopt` test-optimization core against its
natural-language specification: the result-tree status aggregation
(`src/ddtestopt/internal/recorder.py`), the retry handlers
(`src/ddtestopt/internal/retry_handlers.py`, plus the older snapshot of the
same class in `recorder.py`), the pytest plugin's retry loop
(`src/ddtestopt/internal/pytest/plugin.py`) and the session manager's
retry-handler installation (`src/ddtestopt/internal/session_manager.py`).

Python conventions used throughout the embedding:
* `None`-able values become `Option`;
* operations that can raise (`list[-1]` on an empty list, `dict[key]` on a
  missing key, an attribute access on `None`) return `Option`, with `none`
  standing for the raised exception;
* Python `dict`s keyed by strings become association lists, preserving the
  insertion order their iteration follows.
-/

namespace DdTestOpt

/-- `TestStatus`: enum with exactly the values PASS, FAIL, SKIP
(`recorder.py` lines 37-40). -/
inductive TestStatus where
  | PASS
  | FAIL
  | SKIP
  deriving DecidableEq, Repr

/-! ## The result tree (`recorder.py`, class `TestItem`)

Only the fields that `get_status` reads are modeled: the explicit `status`
field (`None` until `set_status` is called) and the `children` dict.  The
source caches the recomputed status back into `self.status` whenever the
children dict is non-empty; since in that case the returned value is always
the freshly recomputed one, a pure function returns the same value as the
mutating original on every call. -/

/-- A `recorder.py` `TestItem` tree node: explicit `status` and name-keyed
`children` (`recorder.py` lines 46-55).  Timing, tags, metrics and ids do not
influence `get_status` and are omitted. -/
inductive TItem where
  | node (status : Option TestStatus) (children : List (String × TItem))

mutual

/-- `TestItem.get_status` (`recorder.py` lines 63-66):
`if self.children: self.status = self._get_status_from_children(); return self.status`.
With a non-empty children dict the returned value is the recomputed aggregate;
otherwise the stored `status` (possibly `None`) is returned. -/
def TItem.get_status : TItem → Option TestStatus
  | .node status children =>
    if children.isEmpty then status
    else some (TItem.getStatusFromChildren children)
  termination_by t => (sizeOf t, 0)

/-- `TestItem._get_status_from_children` (`recorder.py` lines 71-87):
FAIL if any resolved child status is FAIL, else SKIP if the SKIP count equals
the count of resolved children, else PASS. -/
def TItem.getStatusFromChildren (children : List (String × TItem)) : TestStatus :=
  let resolved := TItem.resolvedChildStatuses children
  if resolved.count TestStatus.FAIL > 0 then TestStatus.FAIL
  else if resolved.count TestStatus.SKIP = resolved.length then TestStatus.SKIP
  else TestStatus.PASS
  termination_by (sizeOf children, 2)

/-- The loop of `_get_status_from_children` (`recorder.py` lines 75-79): each
child's `get_status()` result is collected when it is not `None`
(`if status:`); `status_counts[s]` is the `count` of `s` in this list and
`total_count` is its length. -/
def TItem.resolvedChildStatuses : List (String × TItem) → List TestStatus
  | [] => []
  | (_name, child) :: rest =>
    match TItem.get_status child with
    | some s => s :: TItem.resolvedChildStatuses rest
    | none => TItem.resolvedChildStatuses rest
  termination_by cs => (sizeOf cs, 1)

end

/-- The resolved child statuses are the `filterMap` of `get_status` over the
children, in order. -/
theorem resolvedChildStatuses_eq_filterMap (cs : List (String × TItem)) :
    TItem.resolvedChildStatuses cs = cs.filterMap (fun c => TItem.get_status c.2) := by
  induction cs with
  | nil => rw [TItem.resolvedChildStatuses]; simp
  | cons c rest ih =>
    obtain ⟨name, child⟩ := c
    rw [TItem.resolvedChildStatuses.eq_def]
    cases h : TItem.get_status child <;> simp [h, ih]

/-- A status occurs among the resolved child statuses exactly when some child's
`get_status` returns it. -/
theorem mem_resolvedChildStatuses (cs : List (String × TItem)) (s : TestStatus) :
    s ∈ TItem.resolvedChildStatuses cs ↔ ∃ c ∈ cs, TItem.get_status c.2 = some s := by
  rw [resolvedChildStatuses_eq_filterMap]
  simp [List.mem_filterMap]

/-- On a node with no children, `get_status` returns the stored explicit status
(`recorder.py` line 66), which may be `none`. -/
theorem get_status_node_nil (s : Option TestStatus) :
    TItem.get_status (.node s []) = s := by
  rw [TItem.get_status.eq_def]
  simp

/-- On a node with a non-empty children dict, `get_status` returns the
recomputed child aggregate, whatever the stored explicit status is. -/
theorem get_status_node_of_ne (s : Option TestStatus) (cs : List (String × TItem))
    (h : cs ≠ []) :
    TItem.get_status (.node s cs) = some (TItem.getStatusFromChildren cs) := by
  rw [TItem.get_status.eq_def]
  cases cs with
  | nil => exact absurd rfl h
  | cons c rest => simp

/-- Unfolding of `_get_status_from_children` in terms of the resolved child
status list. -/
theorem getStatusFromChildren_eq (cs : List (String × TItem)) :
    TItem.getStatusFromChildren cs =
      (if (TItem.resolvedChildStatuses cs).count TestStatus.FAIL > 0 then TestStatus.FAIL
       else if (TItem.resolvedChildStatuses cs).count TestStatus.SKIP =
           (TItem.resolvedChildStatuses cs).length then TestStatus.SKIP
       else TestStatus.PASS) := by
  rw [TItem.getStatusFromChildren]

/-- C1: for a tree node with a non-empty children map, no explicit status
override, and every child's status resolved, `get_status` returns FAIL if some
child's status is FAIL; otherwise SKIP if every child's status is SKIP;
otherwise PASS. -/
theorem c1_status_aggregation (cs : List (String × TItem)) (hne : cs ≠ [])
    (hres : ∀ c ∈ cs, (TItem.get_status c.2).isSome) :
    ((∃ c ∈ cs, TItem.get_status c.2 = some TestStatus.FAIL) →
      TItem.get_status (.node none cs) = some TestStatus.FAIL) ∧
    ((∀ c ∈ cs, TItem.get_status c.2 = some TestStatus.SKIP) →
      TItem.get_status (.node none cs) = some TestStatus.SKIP) ∧
    ((¬ ∃ c ∈ cs, TItem.get_status c.2 = some TestStatus.FAIL) →
      (¬ ∀ c ∈ cs, TItem.get_status c.2 = some TestStatus.SKIP) →
      TItem.get_status (.node none cs) = some TestStatus.PASS) := by
  rw [get_status_node_of_ne none cs hne, getStatusFromChildren_eq]
  refine ⟨fun hfail => ?_, fun hskip => ?_, fun hnofail hnotskip => ?_⟩
  · have hmem : TestStatus.FAIL ∈ TItem.resolvedChildStatuses cs :=
      (mem_resolvedChildStatuses cs _).mpr hfail
    rw [if_pos (List.count_pos_iff.mpr hmem)]
  · have hnofail : TestStatus.FAIL ∉ TItem.resolvedChildStatuses cs := by
      intro hmem
      obtain ⟨c, hc, hcs⟩ := (mem_resolvedChildStatuses cs _).mp hmem
      exact absurd (hskip c hc) (by simp [hcs])
    rw [if_neg (by rw [List.count_eq_zero.mpr hnofail]; simp)]
    rw [if_pos (List.count_eq_length.mpr ?_)]
    intro b hb
    obtain ⟨c, hc, hcs⟩ := (mem_resolvedChildStatuses cs _).mp hb
    rw [hskip c hc] at hcs
    exact Option.some_injective _ hcs
  · have hnomem : TestStatus.FAIL ∉ TItem.resolvedChildStatuses cs := by
      intro hmem
      exact hnofail ((mem_resolvedChildStatuses cs _).mp hmem)
    rw [if_neg (by rw [List.count_eq_zero.mpr hnomem]; simp)]
    rw [if_neg ?_]
    intro hcount
    apply hnotskip
    intro c hc
    obtain ⟨s, hs⟩ := Option.isSome_iff_exists.mp (hres c hc)
    have hsmem : s ∈ TItem.resolvedChildStatuses cs :=
      (mem_resolvedChildStatuses cs s).mpr ⟨c, hc, hs⟩
    have := List.count_eq_length.mp hcount s hsmem
    rw [hs, ← this]

/-- Witness for C1: a node with a PASS child and a FAIL child aggregates to
FAIL. -/
theorem c1_status_aggregation_witness :
    ([("a", TItem.node (some TestStatus.PASS) []), ("b", TItem.node (some TestStatus.FAIL) [])] ≠
      ([] : List (String × TItem))) ∧
    (∀ c ∈ [("a", TItem.node (some TestStatus.PASS) []),
        ("b", TItem.node (some TestStatus.FAIL) [])], (TItem.get_status c.2).isSome) ∧
    TItem.get_status (.node none [("a", TItem.node (some TestStatus.PASS) []),
        ("b", TItem.node (some TestStatus.FAIL) [])]) = some TestStatus.FAIL := by
  have hres : ∀ c ∈ [("a", TItem.node (some TestStatus.PASS) []),
      ("b", TItem.node (some TestStatus.FAIL) [])], (TItem.get_status c.2).isSome := by
    intro c hc
    simp only [List.mem_cons, List.not_mem_nil, or_false] at hc
    rcases hc with h | h <;> subst h <;> simp [get_status_node_nil]
  refine ⟨by simp, hres, ?_⟩
  exact (c1_status_aggregation _ (by simp) hres).1
    ⟨("b", TItem.node (some TestStatus.FAIL) []), by simp, by simp [get_status_node_nil]⟩

/-- C2 counterexample: a node with zero children and no explicitly set status
has `get_status` return `None` (no status at all), not SKIP. -/
theorem c2_counterexample :
    TItem.get_status (TItem.node none []) = none ∧
    TItem.get_status (TItem.node none []) ≠ some TestStatus.SKIP := by
  refine ⟨get_status_node_nil none, ?_⟩
  rw [get_status_node_nil none]
  simp

/-- C2 amended: for a node with zero children and no explicitly set status,
`get_status` returns `None` (an absent status); the vacuous "all children
skipped" SKIP tie-break lives only in the helper `_get_status_from_children`,
which returns SKIP on an empty children map but is not invoked by
`get_status` in that case. -/
theorem c2_amended :
    TItem.get_status (TItem.node none []) = none ∧
    TItem.getStatusFromChildren [] = TestStatus.SKIP := by
  refine ⟨get_status_node_nil none, ?_⟩
  rw [getStatusFromChildren_eq, TItem.resolvedChildStatuses]
  simp

/-- C3 counterexample: a node whose explicit status was set to PASS but which
has a FAIL child returns FAIL from `get_status`, not the explicit PASS. -/
theorem c3_counterexample :
    TItem.get_status (TItem.node (some TestStatus.PASS)
        [("c", TItem.node (some TestStatus.FAIL) [])]) = some TestStatus.FAIL ∧
    TItem.get_status (TItem.node (some TestStatus.PASS)
        [("c", TItem.node (some TestStatus.FAIL) [])]) ≠ some TestStatus.PASS := by
  have h : TItem.get_status (TItem.node (some TestStatus.PASS)
      [("c", TItem.node (some TestStatus.FAIL) [])]) = some TestStatus.FAIL := by
    rw [get_status_node_of_ne _ _ (by simp), getStatusFromChildren_eq,
      TItem.resolvedChildStatuses, TItem.resolvedChildStatuses]
    simp [get_status_node_nil]
  exact ⟨h, by simp [h]⟩

/-- C3 amended: `get_status` returns the explicitly set status only when the
node has no children; whenever the children map is non-empty the result is
recomputed bottom-up from the children, overriding (and overwriting) any
explicitly set status. -/
theorem c3_amended (s : Option TestStatus) (cs : List (String × TItem)) :
    TItem.get_status (.node s []) = s ∧
    (cs ≠ [] →
      TItem.get_status (.node s cs) = some (TItem.getStatusFromChildren cs)) := by
  exact ⟨get_status_node_nil s, fun h => get_status_node_of_ne s cs h⟩

/-- Witness for C3 amended: explicit PASS wins on a childless node; with one
FAIL child the recomputed aggregate is returned instead. -/
theorem c3_amended_witness :
    TItem.get_status (.node (some TestStatus.PASS) []) = some TestStatus.PASS ∧
    ([("c", TItem.node (some TestStatus.FAIL) [])] ≠ ([] : List (String × TItem))) ∧
    TItem.get_status (.node (some TestStatus.PASS)
        [("c", TItem.node (some TestStatus.FAIL) [])]) =
      some (TItem.getStatusFromChildren [("c", TItem.node (some TestStatus.FAIL) [])]) := by
  refine ⟨(c3_amended (some TestStatus.PASS) []).1, by simp, ?_⟩
  exact (c3_amended (some TestStatus.PASS)
    [("c", TItem.node (some TestStatus.FAIL) [])]).2 (by simp)

/-! ## Tests and test runs (`recorder.py` classes `Test` and `TestRun`)

A `TestRun` is a childless `TestItem` whose status is set once from the
observed outcome; a `Test` owns the ordered `test_runs` list.  Runs are
appended by `make_test_run` and never reordered or removed.  Tracing ids,
timing and tags play no role in the retry decisions and are omitted. -/

/-- A `TestRun` (`recorder.py` lines 106-126): its own `status` plus the
`attempt_number` assigned at creation by `Test.make_test_run`
(line 156). -/
structure TestRun where
  status : Option TestStatus := none
  attempt_number : Nat
  deriving DecidableEq, Repr

/-- `TestItem.get_status` specialized to a run: a `TestRun`'s children dict is
always empty (runs live in `Test.test_runs`, not in `children`), so the stored
status — possibly `None` — is returned (`recorder.py` line 66). -/
def TestRun.get_status (r : TestRun) : Option TestStatus := r.status

/-- A `Test` node as the retry machinery sees it (`recorder.py` lines
129-162): the explicit `status` override and the ordered `test_runs` list. -/
structure Test where
  status : Option TestStatus := none
  test_runs : List TestRun := []
  deriving DecidableEq, Repr

/-- `Test.make_test_run` (`recorder.py` lines 153-158): create a fresh run
whose `attempt_number` is the current length of `test_runs`, append it, and
return it. -/
def Test.make_test_run (t : Test) : TestRun × Test :=
  let test_run : TestRun := { status := none, attempt_number := t.test_runs.length }
  (test_run, { t with test_runs := t.test_runs ++ [test_run] })

/-- `Test.last_test_run` (`recorder.py` lines 160-162):
`return self.test_runs[-1]`.  On an empty list Python raises `IndexError`;
the raised exception is modeled as `none`. -/
def Test.last_test_run (t : Test) : Option TestRun :=
  t.test_runs.getLast?

/-- `TestItem.set_status` (`recorder.py` lines 68-69). -/
def Test.set_status (t : Test) (s : TestStatus) : Test :=
  { t with status := some s }

/-! ## Retry handlers (`retry_handlers.py`) -/

/-- `AutoTestRetriesHandler.should_apply` (`retry_handlers.py` lines 55-60):
the body is literally `return (False)` — the condition on the last run is
present only as a comment in the source. -/
def AutoTestRetriesHandler.should_apply (_test : Test) : Bool :=
  false

/-- `AutoTestRetriesHandler.should_retry` (`retry_handlers.py` lines 62-63):
`test.last_test_run.get_status() == TestStatus.FAIL and len(test.test_runs) < 6`.
`last_test_run` raises `IndexError` on a test with no runs (modeled `none`). -/
def AutoTestRetriesHandler.should_retry (test : Test) : Option Bool :=
  test.last_test_run.map
    (fun r => r.get_status == some TestStatus.FAIL && decide (test.test_runs.length < 6))

/-- `AutoTestRetriesHandler.get_final_status` (`retry_handlers.py` lines
65-66): the status of the last run, whatever it is; `IndexError` on a test
with no runs (modeled as the outer `none`). -/
def AutoTestRetriesHandler.get_final_status (test : Test) : Option (Option TestStatus) :=
  test.last_test_run.map TestRun.get_status

namespace RecorderSnapshot

/-- The older `AutoTestRetriesHandler.should_apply` snapshot kept in
`recorder.py` (lines 389-393): `test.last_test_run.get_status() == TestStatus.FAIL`
— true whenever the last run failed, with no retry-budget condition. -/
def AutoTestRetriesHandler.should_apply (test : Test) : Option Bool :=
  test.last_test_run.map (fun r => r.get_status == some TestStatus.FAIL)

end RecorderSnapshot

/-- `EarlyFlakeDetectionHandler.should_apply` (`retry_handlers.py` lines
79-83): `True` (the `is_new` condition is present only as a comment). -/
def EarlyFlakeDetectionHandler.should_apply (_test : Test) : Bool :=
  true

/-- `EarlyFlakeDetectionHandler.should_retry` (`retry_handlers.py` lines
85-90): `len(test.test_runs) < 6` (the SKIP condition is commented out). -/
def EarlyFlakeDetectionHandler.should_retry (test : Test) : Bool :=
  decide (test.test_runs.length < 6)

/-- `EarlyFlakeDetectionHandler.get_final_status` (`retry_handlers.py` lines
92-106): count each run's `get_status()` (the `defaultdict` also counts `None`
statuses, but only the PASS and FAIL counters are consulted); PASS if any run
passed, else FAIL if any run failed, else SKIP. -/
def EarlyFlakeDetectionHandler.get_final_status (test : Test) : TestStatus :=
  let status_counts := fun (s : Option TestStatus) =>
    (test.test_runs.map TestRun.get_status).count s
  if status_counts (some TestStatus.PASS) > 0 then TestStatus.PASS
  else if status_counts (some TestStatus.FAIL) > 0 then TestStatus.FAIL
  else TestStatus.SKIP

/-- The PASS/FAIL counters of `EarlyFlakeDetectionHandler.get_final_status`
are positive exactly when some run has that status. -/
theorem efd_count_pos_iff (t : Test) (s : Option TestStatus) :
    0 < (t.test_runs.map TestRun.get_status).count s ↔
      ∃ r ∈ t.test_runs, TestRun.get_status r = s := by
  rw [List.count_pos_iff]
  simp [List.mem_map]

/-- C5: `EarlyFlakeDetectionHandler.get_final_status` returns PASS if any
recorded run passed; otherwise FAIL if any run failed; otherwise SKIP.  In
particular runs [FAIL, FAIL, PASS] finalize as PASS and all-SKIP runs finalize
as SKIP. -/
theorem c5_efd_final_status :
    (∀ t : Test, (∃ r ∈ t.test_runs, TestRun.get_status r = some TestStatus.PASS) →
      EarlyFlakeDetectionHandler.get_final_status t = TestStatus.PASS) ∧
    (∀ t : Test, (¬ ∃ r ∈ t.test_runs, TestRun.get_status r = some TestStatus.PASS) →
      (∃ r ∈ t.test_runs, TestRun.get_status r = some TestStatus.FAIL) →
      EarlyFlakeDetectionHandler.get_final_status t = TestStatus.FAIL) ∧
    (∀ t : Test, (¬ ∃ r ∈ t.test_runs, TestRun.get_status r = some TestStatus.PASS) →
      (¬ ∃ r ∈ t.test_runs, TestRun.get_status r = some TestStatus.FAIL) →
      EarlyFlakeDetectionHandler.get_final_status t = TestStatus.SKIP) ∧
    EarlyFlakeDetectionHandler.get_final_status
      { test_runs := [{ status := some TestStatus.FAIL, attempt_number := 0 },
        { status := some TestStatus.FAIL, attempt_number := 1 },
        { status := some TestStatus.PASS, attempt_number := 2 }] } = TestStatus.PASS ∧
    EarlyFlakeDetectionHandler.get_final_status
      { test_runs := [{ status := some TestStatus.SKIP, attempt_number := 0 },
        { status := some TestStatus.SKIP, attempt_number := 1 }] } = TestStatus.SKIP := by
  refine ⟨fun t hp => ?_, fun t hnp hf => ?_, fun t hnp hnf => ?_, by decide, by decide⟩
  · rw [EarlyFlakeDetectionHandler.get_final_status]
    rw [if_pos ((efd_count_pos_iff t _).mpr hp)]
  · rw [EarlyFlakeDetectionHandler.get_final_status]
    rw [if_neg (fun h => hnp ((efd_count_pos_iff t _).mp h)),
      if_pos ((efd_count_pos_iff t _).mpr hf)]
  · rw [EarlyFlakeDetectionHandler.get_final_status]
    rw [if_neg (fun h => hnp ((efd_count_pos_iff t _).mp h)),
      if_neg (fun h => hnf ((efd_count_pos_iff t _).mp h))]

/-- C8 counterexample: a test whose single (and hence last) run failed, with
fewer than 6 recorded runs, still gets `should_apply = False` from
`AutoTestRetriesHandler` (`retry_handlers.py` lines 55-60). -/
theorem c8_counterexample :
    (Test.last_test_run
        { test_runs := [{ status := some TestStatus.FAIL, attempt_number := 0 }] }).map
      TestRun.get_status = some (some TestStatus.FAIL) ∧
    ({ test_runs := [{ status := some TestStatus.FAIL, attempt_number := 0 }] } :
      Test).test_runs.length < 6 ∧
    AutoTestRetriesHandler.should_apply
      { test_runs := [{ status := some TestStatus.FAIL, attempt_number := 0 }] } = false := by
  refine ⟨by decide, by decide, rfl⟩

/-- C8 amended: `AutoTestRetriesHandler.should_apply` in `retry_handlers.py`
returns false for every test (the last-run-failed condition is commented out),
so ATR never applies there; the `recorder.py` snapshot of the same method
instead returns true whenever the last run failed, without any budget check —
it still answers true for a test that already holds 6 failed runs. -/
theorem c8_amended :
    (∀ t : Test, AutoTestRetriesHandler.should_apply t = false) ∧
    RecorderSnapshot.AutoTestRetriesHandler.should_apply
      { test_runs := [{ status := some TestStatus.FAIL, attempt_number := 0 },
        { status := some TestStatus.FAIL, attempt_number := 1 },
        { status := some TestStatus.FAIL, attempt_number := 2 },
        { status := some TestStatus.FAIL, attempt_number := 3 },
        { status := some TestStatus.FAIL, attempt_number := 4 },
        { status := some TestStatus.FAIL, attempt_number := 5 }] } = some true := by
  exact ⟨fun t => rfl, by decide⟩

/-- C10: `Test.last_test_run` is partial — on a test whose runs were created
by `make_test_run` (so attempt numbers are the creation indices), a non-empty
`test_runs` list yields the run with the largest `attempt_number`, while an
empty list raises `IndexError` (modeled `none`), and the caller
`AutoTestRetriesHandler.should_retry` propagates that error. -/
theorem c10_last_test_run (t : Test)
    (hwf : t.test_runs.map TestRun.attempt_number = List.range t.test_runs.length) :
    (t.test_runs = [] →
      t.last_test_run = none ∧ AutoTestRetriesHandler.should_retry t = none) ∧
    (t.test_runs ≠ [] → ∃ r, t.last_test_run = some r ∧
      ∀ r2 ∈ t.test_runs, r2.attempt_number ≤ r.attempt_number) := by
  constructor
  · intro hnil
    rw [Test.last_test_run, AutoTestRetriesHandler.should_retry, Test.last_test_run, hnil]
    exact ⟨rfl, rfl⟩
  · intro hne
    cases hlast : t.test_runs.getLast? with
    | none =>
      rw [List.getLast?_eq_none_iff] at hlast
      exact absurd hlast hne
    | some r =>
      refine ⟨r, by rw [Test.last_test_run]; exact hlast, ?_⟩
      have hlenpos : 0 < t.test_runs.length := List.length_pos.mpr hne
      have hmap : (List.range t.test_runs.length).getLast? = some r.attempt_number := by
        rw [← hwf, List.getLast?_map, hlast, Option.map_some']
      have h1 : t.test_runs.length = (t.test_runs.length - 1) + 1 := by omega
      rw [h1, List.range_succ, List.getLast?_concat] at hmap
      have hr1 : r.attempt_number = t.test_runs.length - 1 :=
        (Option.some_injective _ hmap).symm
      intro r2 hr2
      have hmem : r2.attempt_number ∈ List.range t.test_runs.length := by
        rw [← hwf]
        exact List.mem_map_of_mem TestRun.attempt_number hr2
      rw [List.mem_range] at hmem
      omega

/-- Witness for C10: a two-run test (creation-indexed attempt numbers) and the
empty test. -/
theorem c10_last_test_run_witness :
    (([{ status := some TestStatus.PASS, attempt_number := 0 },
        { status := some TestStatus.FAIL, attempt_number := 1 }] : List TestRun).map
      TestRun.attempt_number = List.range 2) ∧
    (({ test_runs := [{ status := some TestStatus.PASS, attempt_number := 0 },
        { status := some TestStatus.FAIL, attempt_number := 1 }] } : Test).test_runs ≠ []) ∧
    (∃ r, ({ test_runs := [{ status := some TestStatus.PASS, attempt_number := 0 },
        { status := some TestStatus.FAIL, attempt_number := 1 }] } : Test).last_test_run = some r ∧
      ∀ r2 ∈ ({ test_runs := [{ status := some TestStatus.PASS, attempt_number := 0 },
        { status := some TestStatus.FAIL, attempt_number := 1 }] } : Test).test_runs,
        r2.attempt_number ≤ r.attempt_number) ∧
    (({} : Test).last_test_run = none ∧
      AutoTestRetriesHandler.should_retry ({} : Test) = none) := by
  refine ⟨by decide, by decide, ?_, ?_⟩
  · exact (c10_last_test_run _ (by decide)).2 (by decide)
  · exact (c10_last_test_run {} (by decide)).1 rfl

/-! ## The plugin's retry loop (`pytest/plugin.py`, `_do_test_runs` /
`_do_retries`), specialized to the Auto Test Retries handler

`outcome n` is the status the test's body produces on its `n`-th attempt; the
Event Writer queue records, in order, the `attempt_number` of every run passed
to `writer.put_item`. -/

/-- `_do_one_test_run` (`plugin.py` lines 223-234): `make_test_run` followed
by `set_status` on the freshly appended run with the observed outcome (tags
and trace context are irrelevant here). -/
def do_one_test_run (outcome : Nat → TestStatus) (t : Test) : Test :=
  { t with test_runs := t.test_runs ++
      [{ status := some (outcome t.test_runs.length),
         attempt_number := t.test_runs.length }] }

/-- The `while should_retry` loop of `_do_retries` (`plugin.py` lines
267-281) with the ATR handler: `should_retry` enters as `True`, so one run
always happens, then the loop continues while
`AutoTestRetriesHandler.should_retry` answers true.  Termination is the
handler's own cap: a retry is requested only while fewer than 6 runs exist. -/
def atr_retry_loop (outcome : Nat → TestStatus) (t : Test) : Test :=
  let t' := do_one_test_run outcome t
  if h : AutoTestRetriesHandler.should_retry t' = some true then
    atr_retry_loop outcome t'
  else t'
  termination_by 6 - t.test_runs.length
  decreasing_by
    unfold t' at h
    simp only [AutoTestRetriesHandler.should_retry, Test.last_test_run,
      do_one_test_run, List.getLast?_concat, Option.map_some', Option.some_inj,
      Bool.and_eq_true, decide_eq_true_eq, List.length_append,
      List.length_singleton] at h
    simp only [do_one_test_run, List.length_append, List.length_singleton]
    omega

/-- `_do_retries` (`plugin.py` lines 252-300) with the ATR handler, tracking
the Event Writer queue: before the loop the initial attempt's run — the
current `last_test_run` — is enqueued once by `put_item` (line 265); the loop
body enqueues nothing; once retries stop, every element of `test_runs` is
enqueued (lines 286-287).

The report-marking steps in between (lines 257-263, 274-278, 289-300) only
decorate pytest reports and add tags; they touch neither `test_runs` nor the
queue.  `plugin.py` is written against a newer `RetryHandler` interface than
src's `retry_handlers.py` (line 258 calls `get_pretty_name()`, line 282
destructures `get_final_status` into a (status, tags) pair); that newer
handler code is absent from src, so those operations are taken from the
spec's section 4.3 contract — `get_final_status` yields the final status
(matching `retry_handlers.py`) and the tag operations are report-only. -/
def atr_do_retries (outcome : Nat → TestStatus) (t : Test) : Test × List Nat :=
  let queue0 := (t.last_test_run.map TestRun.attempt_number).toList
  let t' := atr_retry_loop outcome t
  (t', queue0 ++ t'.test_runs.map TestRun.attempt_number)

/-- `_do_test_runs` (`plugin.py` lines 236-250) with ATR as the applicable
handler: perform one run, then either enter `_do_retries`, or enqueue just
that run once (line 250). -/
def atr_do_test_runs (outcome : Nat → TestStatus) : Test × List Nat :=
  let t1 := do_one_test_run outcome {}
  if AutoTestRetriesHandler.should_retry t1 = some true then
    atr_do_retries outcome t1
  else
    (t1, (t1.last_test_run.map TestRun.attempt_number).toList)

/-- `should_retry` on a test with a known last run. -/
theorem should_retry_of_getLast (t : Test) (r : TestRun)
    (h : t.test_runs.getLast? = some r) :
    AutoTestRetriesHandler.should_retry t =
      some (r.get_status == some TestStatus.FAIL && decide (t.test_runs.length < 6)) := by
  rw [AutoTestRetriesHandler.should_retry, Test.last_test_run, h, Option.map_some']

/-- Once 6 (or more) runs exist, `should_retry` never answers true, whatever
the runs' outcomes. -/
theorem should_retry_at_cap (t : Test) (hlen : 6 ≤ t.test_runs.length) :
    AutoTestRetriesHandler.should_retry t ≠ some true := by
  cases hlast : t.test_runs.getLast? with
  | none =>
    rw [List.getLast?_eq_none_iff] at hlast
    rw [hlast] at hlen
    simp at hlen
  | some r =>
    rw [should_retry_of_getLast t r hlast]
    have : decide (t.test_runs.length < 6) = false := by
      simp only [decide_eq_false_iff_not]
      omega
    rw [this, Bool.and_false]
    simp

/-- Appending one more run via `do_one_test_run`. -/
theorem do_one_test_run_length (outcome : Nat → TestStatus) (t : Test) :
    (do_one_test_run outcome t).test_runs.length = t.test_runs.length + 1 := by
  rw [do_one_test_run]
  simp

/-- The run list after `do_one_test_run`. -/
theorem do_one_test_run_runs (outcome : Nat → TestStatus) (t : Test) :
    (do_one_test_run outcome t).test_runs =
      t.test_runs ++ [TestRun.mk (some (outcome t.test_runs.length)) t.test_runs.length] :=
  rfl

/-- If every attempt fails, the ATR retry loop, entered with fewer than 6
all-failing runs, ends with exactly 6 runs, all failing, attempt numbers
staying the creation indices. -/
theorem atr_retry_loop_const_fail (outcome : Nat → TestStatus)
    (hout : ∀ n, outcome n = TestStatus.FAIL) :
    ∀ fuel t, 6 - t.test_runs.length ≤ fuel →
    (∀ r ∈ t.test_runs, r.status = some TestStatus.FAIL) →
    t.test_runs.length < 6 →
    t.test_runs.map TestRun.attempt_number = List.range t.test_runs.length →
    (atr_retry_loop outcome t).test_runs.length = 6 ∧
    (∀ r ∈ (atr_retry_loop outcome t).test_runs, r.status = some TestStatus.FAIL) ∧
    (atr_retry_loop outcome t).test_runs.map TestRun.attempt_number =
      List.range (atr_retry_loop outcome t).test_runs.length := by
  intro fuel
  induction fuel with
  | zero =>
    intro t hfuel _ hlen _
    omega
  | succ k ih =>
    intro t hfuel hfail hlen hwf
    have hone : (do_one_test_run outcome t).test_runs =
        t.test_runs ++ [TestRun.mk (some (outcome t.test_runs.length)) t.test_runs.length] :=
      do_one_test_run_runs outcome t
    have hfail' : ∀ r ∈ (do_one_test_run outcome t).test_runs,
        r.status = some TestStatus.FAIL := by
      intro r hr
      rw [hone, List.mem_append] at hr
      rcases hr with hr | hr
      · exact hfail r hr
      · simp only [List.mem_singleton] at hr
        rw [hr, hout]
    have hwf' : (do_one_test_run outcome t).test_runs.map TestRun.attempt_number =
        List.range (do_one_test_run outcome t).test_runs.length := by
      rw [hone]
      simp only [List.map_append, List.map_cons, List.map_nil, List.length_append,
        List.length_singleton]
      rw [hwf, ← List.range_succ]
    have hlast' : (do_one_test_run outcome t).test_runs.getLast? =
        some (TestRun.mk (some (outcome t.test_runs.length)) t.test_runs.length) := by
      rw [hone, List.getLast?_concat]
    rw [atr_retry_loop]
    by_cases hc : AutoTestRetriesHandler.should_retry (do_one_test_run outcome t) =
        some true
    · rw [dif_pos hc]
      apply ih
      · rw [do_one_test_run_length]
        omega
      · exact hfail'
      · -- `should_retry = some true` forces the new length below the cap
        rw [should_retry_of_getLast _ _ hlast'] at hc
        simp only [Option.some_inj, Bool.and_eq_true, decide_eq_true_eq] at hc
        exact hc.2
      · exact hwf'
    · rw [dif_neg hc]
      -- the last run failed, so the loop can only have stopped at the cap
      rw [should_retry_of_getLast _ _ hlast'] at hc
      simp only [TestRun.get_status, hout, Option.some_inj] at hc
      rw [do_one_test_run_length] at hc ⊢
      simp only [beq_self_eq_true, Bool.true_and, decide_eq_true_eq] at hc
      have : ¬ t.test_runs.length + 1 < 6 := by
        intro hlt
        exact hc (by simp [decide_eq_true_eq, hlt])
      refine ⟨by omega, hfail', ?_⟩
      rw [do_one_test_run_length] at hwf'
      exact hwf'

/-- `getLast?` returns an element of the list. -/
theorem getLast_eq_some_mem {α : Type _} {l : List α} {a : α}
    (h : l.getLast? = some a) : a ∈ l := by
  have hmem : a ∈ l.getLast? := Option.mem_def.mpr h
  obtain ⟨hne, heq⟩ := List.mem_getLast?_eq_getLast hmem
  rw [heq]
  exact List.getLast_mem hne

/-- The first run of the ATR path under an all-failing outcome requests a
retry: one FAIL run exists and `1 < 6`. -/
theorem atr_first_run_retries (outcome : Nat → TestStatus)
    (hout : ∀ n, outcome n = TestStatus.FAIL) :
    AutoTestRetriesHandler.should_retry (do_one_test_run outcome {}) = some true := by
  have hlast : (do_one_test_run outcome {}).test_runs.getLast? =
      some (TestRun.mk (some (outcome 0)) 0) := by
    rw [do_one_test_run_runs]
    rfl
  rw [should_retry_of_getLast _ _ hlast, do_one_test_run_length]
  rw [TestRun.get_status, hout 0]
  rfl

/-- When the first run requests a retry, `_do_test_runs` takes the
`_do_retries` path: the resulting test is the loop's result, and the queue is
the initial attempt (attempt number 0) followed by every run of the final
list. -/
theorem atr_do_test_runs_retry_path (outcome : Nat → TestStatus)
    (hretry : AutoTestRetriesHandler.should_retry (do_one_test_run outcome {}) =
      some true) :
    atr_do_test_runs outcome =
      (atr_retry_loop outcome (do_one_test_run outcome {}),
        [0] ++ (atr_retry_loop outcome (do_one_test_run outcome {})).test_runs.map
          TestRun.attempt_number) := by
  rw [atr_do_test_runs, if_pos hretry, atr_do_retries]
  have hlast1 : (do_one_test_run outcome {}).last_test_run =
      some (TestRun.mk (some (outcome 0)) 0) := by
    rw [Test.last_test_run, do_one_test_run_runs]
    rfl
  rw [hlast1]
  rfl

/-- Any property preserved by `do_one_test_run` is an invariant of the ATR
retry loop. -/
theorem atr_retry_loop_invariant (outcome : Nat → TestStatus) (P : Test → Prop)
    (hstep : ∀ t, P t → P (do_one_test_run outcome t)) :
    ∀ fuel t, 6 - t.test_runs.length ≤ fuel → P t → P (atr_retry_loop outcome t) := by
  intro fuel
  induction fuel with
  | zero =>
    intro t hfuel hP
    rw [atr_retry_loop]
    have hcap : AutoTestRetriesHandler.should_retry (do_one_test_run outcome t) ≠
        some true := by
      apply should_retry_at_cap
      rw [do_one_test_run_length]
      omega
    rw [dif_neg hcap]
    exact hstep t hP
  | succ k ih =>
    intro t hfuel hP
    rw [atr_retry_loop]
    by_cases hc : AutoTestRetriesHandler.should_retry (do_one_test_run outcome t) =
        some true
    · rw [dif_pos hc]
      apply ih
      · rw [do_one_test_run_length]
        omega
      · exact hstep t hP
    · rw [dif_neg hc]
      exact hstep t hP

/-- Under an all-failing outcome, the full `_do_test_runs` + `_do_retries`
path ends with exactly 6 runs, all failed, creation-indexed. -/
theorem atr_do_test_runs_const_fail (outcome : Nat → TestStatus)
    (hout : ∀ n, outcome n = TestStatus.FAIL) :
    (atr_do_test_runs outcome).1 = atr_retry_loop outcome (do_one_test_run outcome {}) ∧
    (atr_do_test_runs outcome).2 =
      [0] ++ (atr_do_test_runs outcome).1.test_runs.map TestRun.attempt_number ∧
    (atr_do_test_runs outcome).1.test_runs.length = 6 ∧
    (∀ r ∈ (atr_do_test_runs outcome).1.test_runs, r.status = some TestStatus.FAIL) ∧
    (atr_do_test_runs outcome).1.test_runs.map TestRun.attempt_number =
      List.range (atr_do_test_runs outcome).1.test_runs.length := by
  have hretry := atr_first_run_retries outcome hout
  have hfirst : (do_one_test_run outcome {}).test_runs =
      [TestRun.mk (some (outcome 0)) 0] := by
    rw [do_one_test_run_runs]
    rfl
  have hmain := atr_retry_loop_const_fail outcome hout 6 (do_one_test_run outcome {})
    (by rw [do_one_test_run_length]; omega)
    (by
      intro r hr
      rw [hfirst, List.mem_singleton] at hr
      rw [hr, hout 0])
    (by rw [do_one_test_run_length]; simp)
    (by rw [hfirst]; rfl)
  rw [atr_do_test_runs_retry_path outcome hretry]
  exact ⟨rfl, rfl, hmain.1, hmain.2.1, hmain.2.2⟩

/-- C4: under Auto Test Retries with the default cap of 6, a test whose every
run fails accumulates exactly 6 `TestRun`s, `should_retry` answers false once
6 runs exist regardless of outcome, and the final status —
`AutoTestRetriesHandler.get_final_status`, the status of the last run — is
FAIL. -/
theorem c4_atr_cap_termination (outcome : Nat → TestStatus)
    (hout : ∀ n, outcome n = TestStatus.FAIL) :
    (atr_do_test_runs outcome).1.test_runs.length = 6 ∧
    AutoTestRetriesHandler.get_final_status (atr_do_test_runs outcome).1 =
      some (some TestStatus.FAIL) ∧
    AutoTestRetriesHandler.should_retry (atr_do_test_runs outcome).1 = some false ∧
    (∀ t : Test, 6 ≤ t.test_runs.length →
      AutoTestRetriesHandler.should_retry t ≠ some true) := by
  obtain ⟨-, -, hlen, hfail, -⟩ := atr_do_test_runs_const_fail outcome hout
  have hne : (atr_do_test_runs outcome).1.test_runs ≠ [] := by
    intro hnil
    rw [hnil] at hlen
    simp at hlen
  cases hlast : (atr_do_test_runs outcome).1.test_runs.getLast? with
  | none =>
    rw [List.getLast?_eq_none_iff] at hlast
    exact absurd hlast hne
  | some r =>
    have hrfail : r.status = some TestStatus.FAIL :=
      hfail r (getLast_eq_some_mem hlast)
    refine ⟨hlen, ?_, ?_, fun t ht => should_retry_at_cap t ht⟩
    · rw [AutoTestRetriesHandler.get_final_status, Test.last_test_run, hlast,
        Option.map_some', TestRun.get_status, hrfail]
    · rw [should_retry_of_getLast _ _ hlast, hlen, TestRun.get_status, hrfail]
      rfl

/-- Witness for C4: the constant-FAIL outcome. -/
theorem c4_atr_cap_termination_witness :
    (atr_do_test_runs (fun _ => TestStatus.FAIL)).1.test_runs.length = 6 ∧
    AutoTestRetriesHandler.get_final_status
      (atr_do_test_runs (fun _ => TestStatus.FAIL)).1 = some (some TestStatus.FAIL) ∧
    AutoTestRetriesHandler.should_retry
      (atr_do_test_runs (fun _ => TestStatus.FAIL)).1 = some false := by
  obtain ⟨h1, h2, h3, -⟩ :=
    c4_atr_cap_termination (fun _ => TestStatus.FAIL) (fun _ => rfl)
  exact ⟨h1, h2, h3⟩

/-- C9: in the retry path (`_do_retries`), once retries stop, the first
attempt's run has been enqueued to the Event Writer exactly twice — once when
the initial attempt is logged (`plugin.py` line 265) and once more in the
final loop over `test_runs` (lines 286-287) — while every later attempt's run
is enqueued exactly once. -/
theorem c9_retry_path_enqueues (outcome : Nat → TestStatus)
    (hretry : AutoTestRetriesHandler.should_retry (do_one_test_run outcome {}) =
      some true) :
    (atr_do_test_runs outcome).2.count 0 = 2 ∧
    (∀ i, 1 ≤ i → i < (atr_do_test_runs outcome).1.test_runs.length →
      (atr_do_test_runs outcome).2.count i = 1) := by
  rw [atr_do_test_runs_retry_path outcome hretry]
  have hinv := atr_retry_loop_invariant outcome
    (fun t => t.test_runs.map TestRun.attempt_number = List.range t.test_runs.length ∧
      1 ≤ t.test_runs.length)
    (by
      intro t ht
      rw [do_one_test_run_runs]
      refine ⟨?_, ?_⟩
      · simp only [List.map_append, List.map_cons, List.map_nil, List.length_append,
          List.length_singleton]
        rw [ht.1, ← List.range_succ]
      · simp)
    6 (do_one_test_run outcome {})
    (by rw [do_one_test_run_length]; omega)
    (by
      show (do_one_test_run outcome {}).test_runs.map TestRun.attempt_number =
          List.range (do_one_test_run outcome {}).test_runs.length ∧
        1 ≤ (do_one_test_run outcome {}).test_runs.length
      rw [do_one_test_run_runs]
      exact ⟨rfl, by simp⟩)
  obtain ⟨hwf, hpos⟩ := hinv
  rw [hwf]
  constructor
  · have h0 : (List.range
        (atr_retry_loop outcome (do_one_test_run outcome {})).test_runs.length).count 0 = 1 :=
      List.count_eq_one_of_mem (List.nodup_range _) (List.mem_range.mpr (by omega))
    simp [List.singleton_append, List.count_cons, h0]
  · intro i h1 h2
    have hi : (List.range
        (atr_retry_loop outcome (do_one_test_run outcome {})).test_runs.length).count i = 1 :=
      List.count_eq_one_of_mem (List.nodup_range _) (List.mem_range.mpr h2)
    have hne0 : i ≠ 0 := by omega
    simp [List.singleton_append, List.count_cons, hi, hne0]

/-- Witness for C9: the constant-FAIL outcome takes the retry path; attempt 0
is enqueued twice and attempt 1 once. -/
theorem c9_retry_path_enqueues_witness :
    AutoTestRetriesHandler.should_retry (do_one_test_run (fun _ => TestStatus.FAIL) {}) =
      some true ∧
    (atr_do_test_runs (fun _ => TestStatus.FAIL)).2.count 0 = 2 ∧
    (atr_do_test_runs (fun _ => TestStatus.FAIL)).2.count 1 = 1 := by
  have hretry := atr_first_run_retries (fun _ => TestStatus.FAIL) (fun _ => rfl)
  have hlen :=
    (atr_do_test_runs_const_fail (fun _ => TestStatus.FAIL) (fun _ => rfl)).2.2.1
  have h := c9_retry_path_enqueues (fun _ => TestStatus.FAIL) hretry
  exact ⟨hretry, h.1, h.2 1 (by omega) (by rw [hlen]; omega)⟩

/-! ## pytest reports and the quarantine override (`pytest/plugin.py`) -/

/-- The fields of a `pytest.TestReport` that the quarantine override touches:
the phase (`when`), the `outcome` string, and the optional `longrepr` triple
(file path, line number, reason) per `_Longrepr` (`plugin.py` lines 40-47). -/
structure TestReport where
  phase : String
  outcome : String
  longrepr : Option (String × Nat × String) := none
  deriving DecidableEq, Repr

/-- The per-phase report dict `_ReportGroup` (`plugin.py` line 106), keyed by
"setup" / "call" / "teardown"; a missing phase is `none`. -/
structure ReportGroup where
  setup : Option TestReport := none
  call : Option TestReport := none
  teardown : Option TestReport := none
  deriving DecidableEq, Repr

/-- `_mark_test_report_as_quarantined` (`plugin.py` lines 322-332), for an
item whose file is `path` and location line is `line`: a teardown report is
forced to "passed"; any other phase gets a `(path, line, "Quarantined")`
`longrepr` and is forced to "skipped". -/
def mark_test_report_as_quarantined (path : String) (line : Nat)
    (report : TestReport) : TestReport :=
  if report.phase == "teardown" then { report with outcome := "passed" }
  else { report with
      longrepr := some (path, line, "Quarantined"),
      outcome := "skipped" }

/-- `_mark_test_reports_as_quarantined` (`plugin.py` lines 334-342).  The
source assigns through `reports[SETUP]` / `reports[TEARDOWN]`, which raises
`KeyError` when the phase is missing (and marking a `None` setup report would
raise too); each such failure is the `none` result. -/
def mark_test_reports_as_quarantined (path : String) (line : Nat)
    (reports : ReportGroup) : Option ReportGroup :=
  match reports.call with
  | some call_report => do
    let setup_report ← reports.setup
    let teardown_report ← reports.teardown
    some { setup := some { setup_report with outcome := "passed" },
           call := some (mark_test_report_as_quarantined path line call_report),
           teardown := some { teardown_report with outcome := "passed" } }
  | none => do
    let setup_report ← reports.setup
    let teardown_report ← reports.teardown
    some { setup := some (mark_test_report_as_quarantined path line setup_report),
           call := none,
           teardown := some { teardown_report with outcome := "passed" } }

/-- The no-retry tail of `_do_test_runs` (`plugin.py` lines 245-250): when the
test is quarantined or disabled, the reports are cosmetically rewritten before
being logged, while the `TestRun`'s recorded status — set from the real
outcome by `_do_one_test_run` (line 230) — is not touched.  Returns the
reports as logged together with the status the run keeps. -/
def do_test_runs_report_tail (quarantined_or_disabled : Bool) (path : String)
    (line : Nat) (run_status : TestStatus) (reports : ReportGroup) :
    Option (ReportGroup × TestStatus) :=
  if quarantined_or_disabled then
    (mark_test_reports_as_quarantined path line reports).map fun rg => (rg, run_status)
  else
    some (reports, run_status)

/-- C7: for a quarantined (or disabled attempt-to-fix) test whose real
execution fails, the logged reports are forced to non-failing — the failing
call report becomes "skipped" with a "Quarantined" `longrepr`, the teardown
report becomes "passed" — while the run's recorded status is unchanged and
still FAIL. -/
theorem c7_quarantine_dual_bookkeeping (path : String) (line : Nat)
    (setup_report call_report teardown_report : TestReport)
    (hcall : call_report.phase = "call")
    (hfailed : call_report.outcome = "failed") :
    do_test_runs_report_tail true path line TestStatus.FAIL
        { setup := some setup_report, call := some call_report,
           teardown := some teardown_report } =
      some ({ setup := some { setup_report with outcome := "passed" },
              call := some { call_report with
                longrepr := some (path, line, "Quarantined"),
                outcome := "skipped" },
              teardown := some { teardown_report with outcome := "passed" } },
        TestStatus.FAIL) := by
  rw [do_test_runs_report_tail, if_pos rfl, mark_test_reports_as_quarantined]
  simp only [Option.bind_eq_bind, Option.some_bind, Option.map_some']
  rw [mark_test_report_as_quarantined, hcall]
  rfl

/-- Witness for C7: a concrete failing execution (setup passed, call failed,
teardown passed) under quarantine. -/
theorem c7_quarantine_dual_bookkeeping_witness :
    (TestReport.mk "call" "failed" none).phase = "call" ∧
    (TestReport.mk "call" "failed" none).outcome = "failed" ∧
    do_test_runs_report_tail true "test_file.py" 3 TestStatus.FAIL
        { setup := some (TestReport.mk "setup" "passed" none),
           call := some (TestReport.mk "call" "failed" none),
           teardown := some (TestReport.mk "teardown" "passed" none) } =
      some ({ setup := some (TestReport.mk "setup" "passed" none),
              call := some (TestReport.mk "call" "skipped"
                (some ("test_file.py", 3, "Quarantined"))),
              teardown := some (TestReport.mk "teardown" "passed" none) },
        TestStatus.FAIL) := by
  refine ⟨rfl, rfl, ?_⟩
  exact c7_quarantine_dual_bookkeeping "test_file.py" 3
    (TestReport.mk "setup" "passed" none) (TestReport.mk "call" "failed" none)
    (TestReport.mk "teardown" "passed" none) rfl rfl

/-! ## Settings and retry-handler installation (`api_client.py`,
`session_manager.py`) -/

/-- `EarlyFlakeDetectionSettings` (`api_client.py` lines 166-173), with its
dataclass defaults — in particular `faulty_session_threshold: int = 30`. -/
structure EarlyFlakeDetectionSettings where
  enabled : Bool := false
  slow_test_retries_5s : Nat := 10
  slow_test_retries_10s : Nat := 5
  slow_test_retries_30s : Nat := 3
  slow_test_retries_5m : Nat := 2
  faulty_session_threshold : Int := 30
  deriving DecidableEq, Repr

/-- `AutoTestRetriesSettings` (`api_client.py` lines 188-190). -/
structure AutoTestRetriesSettings where
  enabled : Bool := false
  deriving DecidableEq, Repr

/-- Modelled from the spec: `test_management: {enabled}` (spec section 6).
The `Settings` dataclass in src's `api_client.py` carries no `test_management`
field, yet `SessionManager.setup_retry_handlers` reads
`self.settings.test_management.enabled` (`session_manager.py` line 105); the
missing dataclass is modeled as the single `enabled` flag the spec names. -/
structure TestManagementSettings where
  enabled : Bool := false
  deriving DecidableEq, Repr

/-- `Settings` (`api_client.py` lines 193-197) plus the spec-modeled
`test_management` member consumed by `setup_retry_handlers`. -/
structure Settings where
  early_flake_detection : EarlyFlakeDetectionSettings := {}
  auto_test_retries : AutoTestRetriesSettings := {}
  known_tests_enabled : Bool := false
  test_management : TestManagementSettings := {}
  deriving DecidableEq, Repr

/-- `ModuleRef` (`recorder.py` lines 20-22): a frozen value type. -/
structure ModuleRef where
  name : String
  deriving DecidableEq, Repr

/-- `SuiteRef` (`recorder.py` lines 25-28). -/
structure SuiteRef where
  module : ModuleRef
  name : String
  deriving DecidableEq, Repr

/-- `TestRef` (`recorder.py` lines 31-34). -/
structure TestRef where
  suite : SuiteRef
  name : String
  deriving DecidableEq, Repr

/-- The kinds of retry handlers `setup_retry_handlers` can install
(`retry_handlers.py` classes referenced by `session_manager.py` lines
106/122/127; `AttemptToFixHandler` itself is absent from src's
`retry_handlers.py` but only its installation matters here). -/
inductive RetryHandlerKind where
  | attemptToFix
  | earlyFlakeDetection
  | autoTestRetries
  deriving DecidableEq, Repr

/-- `SessionManager.setup_retry_handlers` (`session_manager.py` lines
104-127), invoked once by `finish_collection` (lines 101-102) after the
collection phase and before any retries run.  `collected_tests` is
`self.collected_tests` as populated during discovery, `known_tests` the
backend catalog, and `flaky_retry_env` the value of
`asbool(os.getenv("DD_CIVISIBILITY_FLAKY_RETRY_ENABLED", "true"))`.  Python
float division is modeled with exact rational arithmetic.  The result lists
the kinds of the installed handlers in order. -/
def setup_retry_handlers (settings : Settings)
    (collected_tests known_tests : Finset TestRef) (flaky_retry_env : Bool) :
    List RetryHandlerKind :=
  let handlers0 : List RetryHandlerKind := []
  let handlers1 :=
    if settings.test_management.enabled then
      handlers0 ++ [RetryHandlerKind.attemptToFix]
    else handlers0
  let handlers2 :=
    if settings.early_flake_detection.enabled then
      if known_tests ≠ ∅ then
        let new_tests := collected_tests \ known_tests
        let total_tests := new_tests.card + known_tests.card
        let new_tests_percentage : ℚ := (new_tests.card : ℚ) / (total_tests : ℚ) * 100
        let is_faulty_session :=
          (known_tests.card : Int) > settings.early_flake_detection.faulty_session_threshold ∧
            new_tests_percentage > (settings.early_flake_detection.faulty_session_threshold : ℚ)
        if is_faulty_session then handlers1
        else handlers1 ++ [RetryHandlerKind.earlyFlakeDetection]
      else handlers1
    else handlers1
  if settings.auto_test_retries.enabled && flaky_retry_env then
    handlers2 ++ [RetryHandlerKind.autoTestRetries]
  else handlers2

/-- C6: with EFD enabled in settings and a non-empty known-tests catalog, the
`EarlyFlakeDetectionHandler` is left out of the session's retry-handler list
exactly when `|known| > threshold` and `|new| / (|new| + |known|) * 100 >
threshold` (the same configured threshold, default 30, here fixed by
hypothesis); with known=100, new=50 it is not installed, and with known=100,
new=10 it is installed.  The decision is made once, in
`setup_retry_handlers`, called from `finish_collection` after test
collection. -/
theorem c6_efd_faulty_session_guard (settings : Settings)
    (collected_tests known_tests : Finset TestRef) (flaky_retry_env : Bool)
    (hen : settings.early_flake_detection.enabled = true)
    (hthr : settings.early_flake_detection.faulty_session_threshold = 30)
    (hne : known_tests ≠ ∅) :
    (RetryHandlerKind.earlyFlakeDetection ∉
        setup_retry_handlers settings collected_tests known_tests flaky_retry_env ↔
      ((known_tests.card : Int) > 30 ∧
        ((collected_tests \ known_tests).card : ℚ) /
            (((collected_tests \ known_tests).card : ℚ) + (known_tests.card : ℚ)) *
          100 > 30)) ∧
    (known_tests.card = 100 → (collected_tests \ known_tests).card = 50 →
      RetryHandlerKind.earlyFlakeDetection ∉
        setup_retry_handlers settings collected_tests known_tests flaky_retry_env) ∧
    (known_tests.card = 100 → (collected_tests \ known_tests).card = 10 →
      RetryHandlerKind.earlyFlakeDetection ∈
        setup_retry_handlers settings collected_tests known_tests flaky_retry_env) := by
  have hfx : ((known_tests.card : Int) > settings.early_flake_detection.faulty_session_threshold ∧
      ((collected_tests \ known_tests).card : ℚ) /
          ((((collected_tests \ known_tests).card + known_tests.card : Nat)) : ℚ) * 100 >
        (settings.early_flake_detection.faulty_session_threshold : ℚ)) ↔
      ((known_tests.card : Int) > 30 ∧
        ((collected_tests \ known_tests).card : ℚ) /
            (((collected_tests \ known_tests).card : ℚ) + (known_tests.card : ℚ)) *
          100 > 30) := by
    rw [hthr]
    push_cast
    exact Iff.rfl
  have hiff : RetryHandlerKind.earlyFlakeDetection ∉
        setup_retry_handlers settings collected_tests known_tests flaky_retry_env ↔
      ((known_tests.card : Int) > 30 ∧
        ((collected_tests \ known_tests).card : ℚ) /
            (((collected_tests \ known_tests).card : ℚ) + (known_tests.card : ℚ)) *
          100 > 30) := by
    by_cases hfaulty : ((known_tests.card : Int) >
          settings.early_flake_detection.faulty_session_threshold ∧
        ((collected_tests \ known_tests).card : ℚ) /
            ((((collected_tests \ known_tests).card + known_tests.card : Nat)) : ℚ) * 100 >
          (settings.early_flake_detection.faulty_session_threshold : ℚ)) <;>
      by_cases htm : settings.test_management.enabled = true <;>
      by_cases hatr : (settings.auto_test_retries.enabled && flaky_retry_env) = true <;>
      simp only [setup_retry_handlers, hen, hne, ne_eq, not_false_iff, if_true, htm, hatr,
        if_false, Bool.not_eq_true] <;>
      first
        | (rw [if_pos hfaulty]; exact iff_of_true (by simp) (hfx.mp hfaulty))
        | (rw [if_neg hfaulty]; exact iff_of_false (by simp) (fun hc => hfaulty (hfx.mpr hc)))
  refine ⟨hiff, ?_, ?_⟩
  · intro hk hn
    apply hiff.mpr
    rw [hk, hn]
    norm_num
  · intro hk hn
    by_contra hmem
    have hcond := hiff.mp hmem
    rw [hk, hn] at hcond
    norm_num at hcond

/-- Distinct test references for the C6 witness session, one per natural
number (names of distinct lengths). -/
def natTestRef (n : Nat) : TestRef :=
  { suite := { module := { name := "m" }, name := "s" },
    name := String.mk (List.replicate n 'a') }

/-- `natTestRef` produces pairwise-distinct references. -/
theorem natTestRef_injective : Function.Injective natTestRef := by
  intro a b h
  have hname : String.mk (List.replicate a 'a') = String.mk (List.replicate b 'a') :=
    congrArg TestRef.name h
  have hdata : List.replicate a 'a' = List.replicate b 'a' := congrArg String.data hname
  have hlen := congrArg List.length hdata
  simpa using hlen

/-- A known-tests catalog of 100 distinct tests. -/
def c6KnownTests : Finset TestRef := (Finset.range 100).image natTestRef

/-- A collected set of 150 distinct tests: the 100 known ones plus 50 new. -/
def c6CollectedTests : Finset TestRef := (Finset.range 150).image natTestRef

/-- Settings with EFD enabled and every other field at its dataclass
default (threshold 30). -/
def c6Settings : Settings := { early_flake_detection := { enabled := true } }

/-- The witness catalog has 100 tests. -/
theorem c6KnownTests_card : c6KnownTests.card = 100 := by
  rw [c6KnownTests, Finset.card_image_of_injective _ natTestRef_injective, Finset.card_range]

/-- The witness session has 50 new tests. -/
theorem c6_new_card : (c6CollectedTests \ c6KnownTests).card = 50 := by
  rw [c6CollectedTests, c6KnownTests,
    ← Finset.image_sdiff _ _ natTestRef_injective,
    Finset.card_image_of_injective _ natTestRef_injective,
    Finset.card_sdiff (Finset.range_subset.mpr (by norm_num)),
    Finset.card_range, Finset.card_range]

/-- The witness catalog is non-empty. -/
theorem c6KnownTests_ne : c6KnownTests ≠ ∅ := by
  intro h
  have hc := c6KnownTests_card
  rw [h] at hc
  simp at hc

/-- Witness for C6: known=100, new=50, threshold 30 — a faulty session, so
EFD is not installed. -/
theorem c6_efd_faulty_session_guard_witness :
    c6Settings.early_flake_detection.enabled = true ∧
    c6Settings.early_flake_detection.faulty_session_threshold = 30 ∧
    c6KnownTests ≠ ∅ ∧
    c6KnownTests.card = 100 ∧
    (c6CollectedTests \ c6KnownTests).card = 50 ∧
    RetryHandlerKind.earlyFlakeDetection ∉
      setup_retry_handlers c6Settings c6CollectedTests c6KnownTests true := by
  refine ⟨rfl, rfl, c6KnownTests_ne, c6KnownTests_card, c6_new_card, ?_⟩
  exact (c6_efd_faulty_session_guard c6Settings c6CollectedTests c6KnownTests true
    rfl rfl c6KnownTests_ne).2.1 c6KnownTests_card c6_new_card

end DdTestOpt
